import Mathlib

/-!
Verification development for the Binance API v3 HTTP client
(`src/http_api_v3/mod.rs`).

The embedding models the request execution and authentication pipeline:

* the cryptographic primitives used by `Client::signature` (the `sha2`,
  `hmac` and `hex` crates) are embedded as executable functions on byte
  lists (`sha256`, `hmacSha256`, `hexEncode`), validated below against
  published known-answer vectors (FIPS 180-4 and RFC 4231);
* `Client` and its methods are translated from `mod.rs`.  Each endpoint
  method is modelled as a state-passing function returning both its
  result and the (unchanged, since every Rust method takes `&self`)
  client value.  The result of the request pipeline is the `HttpRequest`
  value (method, absolute URL, headers) handed to the transport; the
  transport itself, `Url::parse` validation and the actual I/O are the
  out-of-scope collaborator;
* the response envelope (`response.rs`, not under `src/`) and the
  per-endpoint request structs with their canonical `to_string`
  serialization (`data/...`, not under `src/`) are modelled from the
  spec, as marked on their doc comments;
* client construction and its one clock-calibration call are modelled
  with an explicit reply stream (`TimeTransport`), one entry consumed
  per network call of the time endpoint, so that `exactly one call` and
  `failure is fatal` are provable statements.
-/

/-- Truncation of a natural number to 32 bits, the wrap-around of the
Rust `u32`/`Wrapping` arithmetic inside SHA-256. -/
def w32 (n : Nat) : Nat := n % 4294967296

/-- Right rotation of a 32-bit word by `n` bits. -/
def rotr32 (n x : Nat) : Nat := w32 ((x >>> n) ||| (x <<< (32 - n)))

/-- The 64 SHA-256 round constants (FIPS 180-4, section 4.2.2), written in
decimal. -/
def shaK : List Nat :=
  [1116352408, 1899447441, 3049323471, 3921009573, 961987163,
   1508970993, 2453635748, 2870763221, 3624381080, 310598401,
   607225278, 1426881987, 1925078388, 2162078206, 2614888103,
   3248222580, 3835390401, 4022224774, 264347078, 604807628,
   770255983, 1249150122, 1555081692, 1996064986, 2554220882,
   2821834349, 2952996808, 3210313671, 3336571891, 3584528711,
   113926993, 338241895, 666307205, 773529912, 1294757372,
   1396182291, 1695183700, 1986661051, 2177026350, 2456956037,
   2730485921, 2820302411, 3259730800, 3345764771, 3516065817,
   3600352804, 4094571909, 275423344, 430227734, 506948616,
   659060556, 883997877, 958139571, 1322822218, 1537002063,
   1747873779, 1955562222, 2024104815, 2227730452, 2361852424,
   2428436474, 2756734187, 3204031479, 3329325298]

/-- The eight 32-bit words of a SHA-256 hash state. -/
structure Sha256State where
  h0 : Nat
  h1 : Nat
  h2 : Nat
  h3 : Nat
  h4 : Nat
  h5 : Nat
  h6 : Nat
  h7 : Nat

/-- The SHA-256 initial hash value (FIPS 180-4, section 5.3.3), written in
decimal. -/
def sha256Init : Sha256State :=
  ⟨1779033703, 3144134277, 1013904242, 2773480762,
   1359893119, 2600822924, 528734635, 1541459225⟩

/-- SHA-256 message padding: append `0x80`, zero bytes up to 56 modulo 64,
then the bit length as 8 big-endian bytes. -/
def sha256Pad (msg : List Nat) : List Nat :=
  let L := msg.length
  let padZeros := (55 + 64 - L % 64) % 64
  let bitLen := 8 * L
  msg ++ [0x80] ++ List.replicate padZeros 0 ++
    [(bitLen >>> 56) &&& 255, (bitLen >>> 48) &&& 255, (bitLen >>> 40) &&& 255,
     (bitLen >>> 32) &&& 255, (bitLen >>> 24) &&& 255, (bitLen >>> 16) &&& 255,
     (bitLen >>> 8) &&& 255, bitLen &&& 255]

/-- Big-endian 32-bit word read from a byte list. -/
def beWord (l : List Nat) : Nat := l.foldl (fun acc b => acc * 256 + b) 0

/-- The 64-entry message schedule of one 64-byte block. -/
def sha256Schedule (block : List Nat) : Array Nat :=
  let w16 : Array Nat :=
    ((List.range 16).map (fun j => beWord ((block.drop (4 * j)).take 4))).toArray
  (List.range 48).foldl
    (fun W i =>
      let s0 :=
        (rotr32 7 (W.getD (i + 1) 0)) ^^^ (rotr32 18 (W.getD (i + 1) 0)) ^^^
          ((W.getD (i + 1) 0) >>> 3)
      let s1 :=
        (rotr32 17 (W.getD (i + 14) 0)) ^^^ (rotr32 19 (W.getD (i + 14) 0)) ^^^
          ((W.getD (i + 14) 0) >>> 10)
      W.push (w32 (W.getD i 0 + s0 + W.getD (i + 9) 0 + s1)))
    w16

/-- The SHA-256 compression function applied to one 64-byte block. -/
def sha256Compress (st : Sha256State) (block : List Nat) : Sha256State :=
  let W := sha256Schedule block
  let r :=
    (List.range 64).foldl
      (fun (r : Nat × Nat × Nat × Nat × Nat × Nat × Nat × Nat) i =>
        let (a, b, c, d, e, f, g, h) := r
        let S1 := (rotr32 6 e) ^^^ (rotr32 11 e) ^^^ (rotr32 25 e)
        let ch := (e &&& f) ^^^ ((2 ^ 32 - 1 - e) &&& g)
        let temp1 := w32 (h + S1 + ch + shaK.getD i 0 + W.getD i 0)
        let S0 := (rotr32 2 a) ^^^ (rotr32 13 a) ^^^ (rotr32 22 a)
        let maj := (a &&& b) ^^^ (a &&& c) ^^^ (b &&& c)
        let temp2 := w32 (S0 + maj)
        (w32 (temp1 + temp2), a, b, c, w32 (d + temp1), e, f, g))
      (st.h0, st.h1, st.h2, st.h3, st.h4, st.h5, st.h6, st.h7)
  let (a, b, c, d, e, f, g, h) := r
  ⟨w32 (st.h0 + a), w32 (st.h1 + b), w32 (st.h2 + c), w32 (st.h3 + d),
   w32 (st.h4 + e), w32 (st.h5 + f), w32 (st.h6 + g), w32 (st.h7 + h)⟩

/-- Big-endian bytes of one 32-bit word. -/
def wordBytes (w : Nat) : List Nat :=
  [(w >>> 24) &&& 255, (w >>> 16) &&& 255, (w >>> 8) &&& 255, w &&& 255]

/-- The 32 digest bytes of a final SHA-256 state. -/
def stateBytes (st : Sha256State) : List Nat :=
  wordBytes st.h0 ++ wordBytes st.h1 ++ wordBytes st.h2 ++ wordBytes st.h3 ++
    wordBytes st.h4 ++ wordBytes st.h5 ++ wordBytes st.h6 ++ wordBytes st.h7

/-- SHA-256 of a byte list (the `sha2` crate collaborator). -/
def sha256 (msg : List Nat) : List Nat :=
  let padded := sha256Pad msg
  let nBlocks := padded.length / 64
  stateBytes
    ((List.range nBlocks).foldl
      (fun st i => sha256Compress st ((padded.drop (64 * i)).take 64))
      sha256Init)

/-- Lowercase hex digit character of a nibble. -/
def hexDigitChar (n : Nat) : Char :=
  if n < 10 then Char.ofNat (48 + n) else Char.ofNat (87 + n)

/-- The character list of the lowercase hex encoding of a byte list:
high nibble first, two characters per byte. -/
def hexCharsOfBytes (bs : List Nat) : List Char :=
  bs.flatMap fun b => [hexDigitChar (b / 16 % 16), hexDigitChar (b % 16)]

/-- Lowercase hex encoding of a byte list, with no separators
(the `hex` crate `encode` collaborator). -/
def hexEncode (bs : List Nat) : String :=
  String.mk (hexCharsOfBytes bs)

/-- The sixteen lowercase hex digit characters. -/
def hexDigits : List Char := "0123456789abcdef".data

/-- UTF-8 encoding of one character. -/
def utf8Bytes (c : Char) : List Nat :=
  let n := c.toNat
  if n < 0x80 then [n]
  else if n < 0x800 then [0xC0 ||| (n >>> 6), 0x80 ||| (n &&& 0x3F)]
  else if n < 0x10000 then
    [0xE0 ||| (n >>> 12), 0x80 ||| ((n >>> 6) &&& 0x3F), 0x80 ||| (n &&& 0x3F)]
  else
    [0xF0 ||| (n >>> 18), 0x80 ||| ((n >>> 12) &&& 0x3F), 0x80 ||| ((n >>> 6) &&& 0x3F),
     0x80 ||| (n &&& 0x3F)]

/-- UTF-8 bytes of a string (`str::as_bytes` of the Rust source). -/
def strBytes (s : String) : List Nat := s.data.flatMap utf8Bytes

/-- HMAC-SHA256 over bytes (the `hmac` crate `Hmac::<Sha256>::new_varkey`
collaborator): keys longer than the 64-byte block are first hashed, the key
is zero-padded to the block size, and the digest is
`H((key xor opad) ++ H((key xor ipad) ++ msg))`.  Total for every key
length, which is why `new_varkey(...).expect(..)` in the source can never
panic. -/
def hmacSha256 (key msg : List Nat) : List Nat :=
  let key := if key.length > 64 then sha256 key else key
  let key := key ++ List.replicate (64 - key.length) 0
  let opad := key.map (fun b => b ^^^ 0x5c)
  let ipad := key.map (fun b => b ^^^ 0x36)
  sha256 (opad ++ sha256 (ipad ++ msg))

/-- HTTP method of a request (`reqwest::Method` as used by the source:
only GET, POST and DELETE occur). -/
inductive Method where
  | GET
  | POST
  | DELETE
deriving DecidableEq

/-- The observable content of the one HTTP request a pipeline run hands to
the transport: method, absolute URL string and header list.  Sending it,
reading the body and the transport-level failures are the out-of-scope
collaborator. -/
structure HttpRequest where
  method : Method
  url : String
  headers : List (String × String)
deriving DecidableEq

/-- The error type `crate::error::Error`, restricted to the variants and
payload components the client code observes.  The opaque error payloads of
the collaborator crates (url/reqwest/serde errors) are dropped; the data
the source threads through (the offending URL, the raw response body, the
exchange code and message) is kept. -/
inductive Error where
  | AuthorizationKeysMissing
  | UrlParsing (url : String)
  | RequestBuilding
  | RequestExecution
  | ResponseReading
  | ResponseParsing (raw : String)
  | ResponseError (code : Int) (msg : String)
deriving DecidableEq

/-- Modelled from the spec: a signed-endpoint request struct
(`data/.../request.rs`, not under `src/`).  Per the spec each request type
serializes to a deterministic, stable-ordered `key=value&...` string in
which `timestamp` is one field; the fields before and after it are
abstracted as prerendered `key=value` pairs, the `timestamp` field (the
one the client mutates) is explicit. -/
structure Query where
  pre : List (String × String)
  timestamp : Int
  post : List (String × String)
deriving DecidableEq

/-- Modelled from the spec: the canonical serialization (`to_string` of the
request structs, not under `src/`): the `key=value` pairs joined by
ampersands, in the fixed declared field order. -/
def Query.toQueryString (q : Query) : String :=
  String.intercalate "&"
    ((q.pre ++ [("timestamp", toString q.timestamp)] ++ q.post).map
      (fun p => p.1 ++ "=" ++ p.2))

/-- The client struct of `mod.rs` (lines 44-53).  The `reqwest::Client`
transport handle is opaque to the core and kept as an abstract identifier. -/
structure Client where
  inner : Nat
  api_key : Option String
  secret_key : Option String
  timestamp_offset : Int
deriving DecidableEq

/-- The API base URL (`Client::BASE_URL`). -/
def Client.BASE_URL : String := "https://api.binance.com"

/-- The request timestamp offset constant
(`Client::REQUEST_TIMESTAMP_OFFSET`, the safety margin of the spec). -/
def Client.REQUEST_TIMESTAMP_OFFSET : Int := 1000

/-- The HMAC signature of `Client::signature` (lines 366-376): HMAC-SHA256
of the UTF-8 bytes of `params` keyed by the UTF-8 bytes of `secret_key`,
hex-encoded lowercase. -/
def Client.signature (params secret_key : String) : String :=
  hexEncode (hmacSha256 (strBytes secret_key) (strBytes params))

/-- Request construction of `Client::execute` (lines 296-311): the absolute
URL is the base URL concatenated with the given path-and-query string, the
method is passed through, no headers are added.  The send, body read and
envelope decode that follow in the source are the transport collaborator
plus `decodeResponse` below. -/
def Client.execute (c : Client) (method : Method) (url : String) : HttpRequest :=
  { method := method, url := Client.BASE_URL ++ url, headers := [] }

/-- Request construction of `Client::execute_signed` (lines 328-349): fails
with `AuthorizationKeysMissing` when the API key is absent — before the URL
is built and before any I/O — and otherwise builds the same request as
`execute` plus the `X-MBX-APIKEY` header. -/
def Client.execute_signed (c : Client) (method : Method) (url : String) :
    Except Error HttpRequest :=
  match c.api_key with
  | none => .error .AuthorizationKeysMissing
  | some api_key =>
    .ok
      { method := method, url := Client.BASE_URL ++ url,
        headers := [("X-MBX-APIKEY", api_key)] }

/-- Modelled from the spec: the two-armed response envelope decode
(`response.rs`, not under `src/`, used by the tail of `execute` and
`execute_signed`, lines 316-322 and 354-360).  The body is parsed by
structural attempt — the success shape first, else the error shape with its
numeric code and message, else the whole parse fails and the raw body is
kept in the `ResponseParsing` error.  The success and error arm parsers of
the payload type are the out-of-scope serde collaborator and are passed as
functions. -/
def decodeResponse {T : Type} (parseOk : String → Option T)
    (parseErr : String → Option (Int × String)) (body : String) : Except Error T :=
  match parseOk body with
  | some t => .ok t
  | none =>
    match parseErr body with
    | some (code, msg) => .error (.ResponseError code msg)
    | none => .error (.ResponseParsing body)

/-- Test connectivity (`Client::ping`, lines 103-105). -/
def Client.ping (c : Client) : HttpRequest × Client :=
  (c.execute .GET "/api/v3/ping", c)

/-- Get the server time (`Client::time`, lines 110-112). -/
def Client.time (c : Client) : HttpRequest × Client :=
  (c.execute .GET "/api/v3/time", c)

/-- Exchange metadata (`Client::exchange_info`, lines 117-119). -/
def Client.exchange_info (c : Client) : HttpRequest × Client :=
  (c.execute .GET "/api/v3/exchangeInfo", c)

/-- Candlestick bars (`Client::klines`, lines 125-130).  The request is
taken already serialized (only its `to_string` is used by the source). -/
def Client.klines (c : Client) (request : String) : HttpRequest × Client :=
  (c.execute .GET ("/api/v3/klines?" ++ request), c)

/-- Market depth (`Client::depth`, lines 135-140).  The request is taken
already serialized. -/
def Client.depth (c : Client) (request : String) : HttpRequest × Client :=
  (c.execute .GET ("/api/v3/depth?" ++ request), c)

/-- Best bid/ask ticker (`Client::depth_ticker`, lines 145-150).  The path
string is reproduced from the source verbatim: it lacks the leading slash
every other endpoint has. -/
def Client.depth_ticker (c : Client) : HttpRequest × Client :=
  (c.execute .GET "api/v3/ticker/bookTicker", c)

/-- Account info (`Client::account_get`, lines 155-170): require the secret
key, subtract the timestamp offset from the request timestamp, serialize,
append the signature over the serialized string, hand to the signed
executor. -/
def Client.account_get (c : Client) (request : Query) :
    Except Error HttpRequest × Client :=
  match c.secret_key with
  | none => (.error .AuthorizationKeysMissing, c)
  | some secret_key =>
    let request := { request with timestamp := request.timestamp - c.timestamp_offset }
    let params := request.toQueryString
    let params := params ++ ("&signature=" ++ Client.signature params secret_key)
    (c.execute_signed .GET ("/api/v3/account?" ++ params), c)

/-- Open orders query (`Client::open_orders_get`, lines 175-193). -/
def Client.open_orders_get (c : Client) (request : Query) :
    Except Error HttpRequest × Client :=
  match c.secret_key with
  | none => (.error .AuthorizationKeysMissing, c)
  | some secret_key =>
    let request := { request with timestamp := request.timestamp - c.timestamp_offset }
    let params := request.toQueryString
    let params := params ++ ("&signature=" ++ Client.signature params secret_key)
    (c.execute_signed .GET ("/api/v3/openOrders?" ++ params), c)

/-- Open orders cancel (`Client::open_orders_delete`, lines 198-216). -/
def Client.open_orders_delete (c : Client) (request : Query) :
    Except Error HttpRequest × Client :=
  match c.secret_key with
  | none => (.error .AuthorizationKeysMissing, c)
  | some secret_key =>
    let request := { request with timestamp := request.timestamp - c.timestamp_offset }
    let params := request.toQueryString
    let params := params ++ ("&signature=" ++ Client.signature params secret_key)
    (c.execute_signed .DELETE ("/api/v3/openOrders?" ++ params), c)

/-- Order status (`Client::order_get`, lines 221-233). -/
def Client.order_get (c : Client) (request : Query) :
    Except Error HttpRequest × Client :=
  match c.secret_key with
  | none => (.error .AuthorizationKeysMissing, c)
  | some secret_key =>
    let request := { request with timestamp := request.timestamp - c.timestamp_offset }
    let params := request.toQueryString
    let params := params ++ ("&signature=" ++ Client.signature params secret_key)
    (c.execute_signed .GET ("/api/v3/order?" ++ params), c)

/-- Order creation (`Client::order_post`, lines 238-250). -/
def Client.order_post (c : Client) (request : Query) :
    Except Error HttpRequest × Client :=
  match c.secret_key with
  | none => (.error .AuthorizationKeysMissing, c)
  | some secret_key =>
    let request := { request with timestamp := request.timestamp - c.timestamp_offset }
    let params := request.toQueryString
    let params := params ++ ("&signature=" ++ Client.signature params secret_key)
    (c.execute_signed .POST ("/api/v3/order?" ++ params), c)

/-- Order cancel (`Client::order_delete`, lines 255-270). -/
def Client.order_delete (c : Client) (request : Query) :
    Except Error HttpRequest × Client :=
  match c.secret_key with
  | none => (.error .AuthorizationKeysMissing, c)
  | some secret_key =>
    let request := { request with timestamp := request.timestamp - c.timestamp_offset }
    let params := request.toQueryString
    let params := params ++ ("&signature=" ++ Client.signature params secret_key)
    (c.execute_signed .DELETE ("/api/v3/order?" ++ params), c)

/-- Order test creation (`Client::order_post_test`, lines 276-291): the
same body as `order_post` except for the path. -/
def Client.order_post_test (c : Client) (request : Query) :
    Except Error HttpRequest × Client :=
  match c.secret_key with
  | none => (.error .AuthorizationKeysMissing, c)
  | some secret_key =>
    let request := { request with timestamp := request.timestamp - c.timestamp_offset }
    let params := request.toQueryString
    let params := params ++ ("&signature=" ++ Client.signature params secret_key)
    (c.execute_signed .POST ("/api/v3/order/test?" ++ params), c)

/-- The reply stream of the time endpoint during construction: one entry
per network call of `GET /api/v3/time`, `some serverTime` for a reply and
`none` for a transport failure. -/
structure TimeTransport where
  replies : List (Option Int)
deriving DecidableEq

/-- One network call of the time endpoint: consume the head reply. -/
def TimeTransport.call (t : TimeTransport) : Option Int × TimeTransport :=
  match t.replies with
  | [] => (none, ⟨[]⟩)
  | r :: rest => (r, ⟨rest⟩)

/-- The offset arithmetic of `Client::timestamp_offset` (lines 381-388):
`system_time` is the wall clock immediately before the time call,
`server_time` the reported server time, `elapsed` the measured round trip
in milliseconds; the estimated server time is `server_time - elapsed / 2`
(the division truncating, on a non-negative duration) and the offset is the
local-minus-server difference plus the fixed margin. -/
def Client.timestamp_offset_calc (system_time server_time : Int) (elapsed : Nat) : Int :=
  let binance_time := server_time - (elapsed : Int) / 2
  (system_time - binance_time) + Client.REQUEST_TIMESTAMP_OFFSET

/-- The calibration call of `Client::timestamp_offset`: one time-endpoint
network call; a transport failure makes the whole construction fail
(`.expect("Time request")` panics in the source, modelled as `none`). -/
def Client.timestamp_offset_call (t : TimeTransport) (system_time : Int) (elapsed : Nat) :
    Option Int × TimeTransport :=
  let (reply, t') := t.call
  (reply.map (fun server_time => Client.timestamp_offset_calc system_time server_time elapsed), t')

/-- Unauthorized construction (`Client::new`, lines 73-83): build the
client with empty credentials and offset zero, then run the one
calibration call and store its offset.  A calibration failure yields no
client value. -/
def Client.new (t : TimeTransport) (system_time : Int) (elapsed : Nat) :
    Option Client × TimeTransport :=
  let client : Client := { inner := 0, api_key := none, secret_key := none, timestamp_offset := 0 }
  let (offset, t') := Client.timestamp_offset_call t system_time elapsed
  match offset with
  | none => (none, t')
  | some offset => (some { client with timestamp_offset := offset }, t')

/-- Authorized construction (`Client::new_with_auth`, lines 88-98): as
`Client.new` with both credentials stored. -/
def Client.new_with_auth (api_key secret_key : String) (t : TimeTransport)
    (system_time : Int) (elapsed : Nat) : Option Client × TimeTransport :=
  let client : Client :=
    { inner := 0, api_key := some api_key, secret_key := some secret_key, timestamp_offset := 0 }
  let (offset, t') := Client.timestamp_offset_call t system_time elapsed
  match offset with
  | none => (none, t')
  | some offset => (some { client with timestamp_offset := offset }, t')

/-- A fully authenticated concrete client for witnesses. -/
def clientAuthW : Client :=
  { inner := 0, api_key := some "apikey", secret_key := some "secretkey", timestamp_offset := 5 }

/-- A concrete client holding only the API key. -/
def clientApiOnlyW : Client :=
  { inner := 0, api_key := some "apikey", secret_key := none, timestamp_offset := 5 }

/-- A concrete client holding only the secret key. -/
def clientSecretOnlyW : Client :=
  { inner := 0, api_key := none, secret_key := some "secretkey", timestamp_offset := 5 }

/-- A concrete fully unauthenticated client. -/
def clientUnauthW : Client :=
  { inner := 0, api_key := none, secret_key := none, timestamp_offset := 0 }

/-- A concrete request for witnesses. -/
def queryW : Query :=
  { pre := [("symbol", "BTCUSDT")], timestamp := 100, post := [("recvWindow", "5000")] }

/-- A concrete success-arm parser for the envelope witness. -/
def parseOkW : String → Option Nat :=
  fun body => if body = "7" then some 7 else none

/-- A concrete error-arm parser for the envelope witness. -/
def parseErrW : String → Option (Int × String) :=
  fun body =>
    if body = "errbody" then
      some (-1021, "Timestamp for this request is outside of the recvWindow.")
    else none

/-- A final SHA-256 state always yields exactly 32 digest bytes. -/
theorem stateBytes_length (st : Sha256State) : (stateBytes st).length = 32 := rfl

/-- SHA-256 always yields exactly 32 bytes. -/
theorem sha256_length (msg : List Nat) : (sha256 msg).length = 32 := by
  unfold sha256
  exact stateBytes_length _

/-- HMAC-SHA256 always yields exactly 32 bytes, for every key length. -/
theorem hmacSha256_length (key msg : List Nat) : (hmacSha256 key msg).length = 32 := by
  unfold hmacSha256
  exact sha256_length _

/-- Hex encoding yields two characters per byte. -/
theorem hexCharsOfBytes_length (bs : List Nat) :
    (hexCharsOfBytes bs).length = 2 * bs.length := by
  induction bs with
  | nil => rfl
  | cons b t ih => simp [hexCharsOfBytes] at ih ⊢; omega

/-- Every nibble maps to a lowercase hex digit character. -/
theorem hexDigitChar_mem (n : Nat) : hexDigitChar (n % 16) ∈ hexDigits := by
  have h : n % 16 < 16 := Nat.mod_lt _ (by norm_num)
  have hall : ∀ m, m < 16 → hexDigitChar m ∈ hexDigits := by decide
  exact hall _ h

/-- Every character of a hex encoding is a lowercase hex digit. -/
theorem mem_hexCharsOfBytes {c : Char} {bs : List Nat}
    (h : c ∈ hexCharsOfBytes bs) : c ∈ hexDigits := by
  induction bs with
  | nil => simp [hexCharsOfBytes] at h
  | cons b t ih =>
    simp only [hexCharsOfBytes, List.flatMap_cons] at h
    rcases List.mem_append.mp h with h' | h'
    · simp only [List.mem_cons, List.not_mem_nil, or_false] at h'
      rcases h' with h' | h'
      · exact h' ▸ hexDigitChar_mem _
      · exact h' ▸ hexDigitChar_mem _
    · exact ih h'

/-- The ampersand is not a hex digit. -/
theorem amp_not_mem_hexDigits : '&' ∉ hexDigits := by decide

/-- The signature is always 64 characters long. -/
theorem signature_length (params secret_key : String) :
    (Client.signature params secret_key).length = 64 := by
  show (hexCharsOfBytes (hmacSha256 (strBytes secret_key) (strBytes params))).length = 64
  rw [hexCharsOfBytes_length, hmacSha256_length]

/-- Every character of a signature is a lowercase hex digit. -/
theorem signature_chars_mem {c : Char} (params secret_key : String)
    (h : c ∈ (Client.signature params secret_key).data) : c ∈ hexDigits :=
  mem_hexCharsOfBytes h

set_option maxRecDepth 400000 in
/-- Known-answer test for the SHA-256 embedding (FIPS 180-4 example). -/
theorem sha256_known_answer :
    hexEncode (sha256 (strBytes "abc")) =
      "ba7816bf8f01cfea414140de5dae2223b00361a396177a9cb410ff61f20015ad" := by
  decide

set_option maxRecDepth 400000 in
/-- Known-answer test for the HMAC-SHA256 signature embedding (RFC 2104
Appendix test vector, also the Wikipedia HMAC example). -/
theorem signature_known_answer :
    Client.signature "The quick brown fox jumps over the lazy dog" "key" =
      "f7bc83f430538424b13298e6aa6fb143ef4d59a14946175997479dbc2d1a3cd8" := by
  decide

/-- C1: for every signed endpoint method (account_get, open_orders_get,
open_orders_delete, order_get, order_post, order_delete, order_post_test)
on a client with a secret key (and, so that a request is actually handed to
the transport, its API key — the both-or-neither credential invariant of
the spec), given a request whose timestamp field is `T`, the query string
sent is `S ++ "&signature=" ++ H`, where the timestamp field was first set
to `T - timestamp_offset`, `S` is the canonical serialization after that
adjustment, and `H` is the signature computed over exactly `S`; the
signature pair is the last parameter of the final string (nothing follows
it and `H` contains no ampersand). -/
theorem signed_endpoints_query_string (c : Client) (q : Query) (sk ak : String)
    (hsk : c.secret_key = some sk) (hak : c.api_key = some ak) :
    let S := Query.toQueryString { q with timestamp := q.timestamp - c.timestamp_offset }
    let H := Client.signature S sk
    let P := S ++ ("&signature=" ++ H)
    (c.account_get q).1 =
      .ok ⟨.GET, Client.BASE_URL ++ ("/api/v3/account?" ++ P), [("X-MBX-APIKEY", ak)]⟩ ∧
    (c.open_orders_get q).1 =
      .ok ⟨.GET, Client.BASE_URL ++ ("/api/v3/openOrders?" ++ P), [("X-MBX-APIKEY", ak)]⟩ ∧
    (c.open_orders_delete q).1 =
      .ok ⟨.DELETE, Client.BASE_URL ++ ("/api/v3/openOrders?" ++ P), [("X-MBX-APIKEY", ak)]⟩ ∧
    (c.order_get q).1 =
      .ok ⟨.GET, Client.BASE_URL ++ ("/api/v3/order?" ++ P), [("X-MBX-APIKEY", ak)]⟩ ∧
    (c.order_post q).1 =
      .ok ⟨.POST, Client.BASE_URL ++ ("/api/v3/order?" ++ P), [("X-MBX-APIKEY", ak)]⟩ ∧
    (c.order_delete q).1 =
      .ok ⟨.DELETE, Client.BASE_URL ++ ("/api/v3/order?" ++ P), [("X-MBX-APIKEY", ak)]⟩ ∧
    (c.order_post_test q).1 =
      .ok ⟨.POST, Client.BASE_URL ++ ("/api/v3/order/test?" ++ P), [("X-MBX-APIKEY", ak)]⟩ ∧
    '&' ∉ H.data := by
  intro S H P
  refine ⟨?_, ?_, ?_, ?_, ?_, ?_, ?_, ?_⟩
  · simp [Client.account_get, hsk, Client.execute_signed, hak]
  · simp [Client.open_orders_get, hsk, Client.execute_signed, hak]
  · simp [Client.open_orders_delete, hsk, Client.execute_signed, hak]
  · simp [Client.order_get, hsk, Client.execute_signed, hak]
  · simp [Client.order_post, hsk, Client.execute_signed, hak]
  · simp [Client.order_delete, hsk, Client.execute_signed, hak]
  · simp [Client.order_post_test, hsk, Client.execute_signed, hak]
  · exact fun hmem => amp_not_mem_hexDigits (signature_chars_mem S sk hmem)

/-- Witness for C1: the theorem applied to a concrete authenticated client
and a concrete request. -/
theorem signed_endpoints_query_string_witness :
    clientAuthW.secret_key = some "secretkey" ∧ clientAuthW.api_key = some "apikey" ∧
    (let S :=
      Query.toQueryString { queryW with timestamp := queryW.timestamp - clientAuthW.timestamp_offset }
     let H := Client.signature S "secretkey"
     let P := S ++ ("&signature=" ++ H)
     (clientAuthW.account_get queryW).1 =
       .ok ⟨.GET, Client.BASE_URL ++ ("/api/v3/account?" ++ P), [("X-MBX-APIKEY", "apikey")]⟩ ∧
     (clientAuthW.open_orders_get queryW).1 =
       .ok ⟨.GET, Client.BASE_URL ++ ("/api/v3/openOrders?" ++ P), [("X-MBX-APIKEY", "apikey")]⟩ ∧
     (clientAuthW.open_orders_delete queryW).1 =
       .ok ⟨.DELETE, Client.BASE_URL ++ ("/api/v3/openOrders?" ++ P), [("X-MBX-APIKEY", "apikey")]⟩ ∧
     (clientAuthW.order_get queryW).1 =
       .ok ⟨.GET, Client.BASE_URL ++ ("/api/v3/order?" ++ P), [("X-MBX-APIKEY", "apikey")]⟩ ∧
     (clientAuthW.order_post queryW).1 =
       .ok ⟨.POST, Client.BASE_URL ++ ("/api/v3/order?" ++ P), [("X-MBX-APIKEY", "apikey")]⟩ ∧
     (clientAuthW.order_delete queryW).1 =
       .ok ⟨.DELETE, Client.BASE_URL ++ ("/api/v3/order?" ++ P), [("X-MBX-APIKEY", "apikey")]⟩ ∧
     (clientAuthW.order_post_test queryW).1 =
       .ok ⟨.POST, Client.BASE_URL ++ ("/api/v3/order/test?" ++ P), [("X-MBX-APIKEY", "apikey")]⟩ ∧
     '&' ∉ H.data) :=
  ⟨rfl, rfl, signed_endpoints_query_string clientAuthW queryW "secretkey" "apikey" rfl rfl⟩

/-- C2: for every construction of a client (both constructors), given a
server-time reply `serverTime`, local wall-clock time `system_time`
measured immediately before the time call, and measured round-trip
duration `elapsed` milliseconds, the stored timestamp offset equals
`(system_time - (serverTime - elapsed / 2)) + 1000`, where `1000` is the
fixed `REQUEST_TIMESTAMP_OFFSET` safety-margin constant and the division
truncates on integer milliseconds. -/
theorem constructor_offset_formula (system_time serverTime : Int) (elapsed : Nat)
    (rest : List (Option Int)) (api_key secret_key : String) :
    Client.REQUEST_TIMESTAMP_OFFSET = 1000 ∧
    (Client.new ⟨some serverTime :: rest⟩ system_time elapsed).1.map Client.timestamp_offset =
      some ((system_time - (serverTime - (elapsed : Int) / 2)) + 1000) ∧
    (Client.new_with_auth api_key secret_key ⟨some serverTime :: rest⟩
        system_time elapsed).1.map Client.timestamp_offset =
      some ((system_time - (serverTime - (elapsed : Int) / 2)) + 1000) := by
  refine ⟨rfl, ?_, ?_⟩ <;>
    simp [Client.new, Client.new_with_auth, Client.timestamp_offset_call,
      TimeTransport.call, Client.timestamp_offset_calc, Client.REQUEST_TIMESTAMP_OFFSET]

/-- C3: the claim states the absolute URL of the single depth_ticker GET
request is the fixed base origin followed by the path
`/api/v3/ticker/bookTicker`.  The source path string
(`format!("api/v3/ticker/bookTicker")`, line 148) lacks the leading slash
every other endpoint has, so the concatenation of `execute` produces a URL
whose host component reads `api.binance.comapi` — contradicting the claim,
the spec, and the URL the repository itself documents on the depth-ticker
response type.  This theorem evaluates the code at the failing input. -/
theorem depth_ticker_url (c : Client) :
    (c.depth_ticker).1.url = "https://api.binance.comapi/v3/ticker/bookTicker" ∧
    (c.depth_ticker).1.url ≠ "https://api.binance.com/api/v3/ticker/bookTicker" := by
  have h : (c.depth_ticker).1.url = "https://api.binance.comapi/v3/ticker/bookTicker" := rfl
  refine ⟨h, ?_⟩
  rw [h]
  decide

/-- C4: the signature is a deterministic pure function of message and
secret (definitional in this embedding), equals the reference HMAC-SHA256
digest of the UTF-8 bytes of the message keyed by the bytes of the secret,
hex-encoded lowercase with no separators (character-wise: every output
character is a lowercase hex digit), and its length is always 64; it is
total for every key and message, including an empty secret (the final
conjunct names the empty-secret case).  The embedded `hmacSha256` is
validated against published vectors in `signature_known_answer`. -/
theorem signature_deterministic_hex (m s : String) :
    Client.signature m s = hexEncode (hmacSha256 (strBytes s) (strBytes m)) ∧
    (Client.signature m s).length = 64 ∧
    (Client.signature m s).data ⊆ hexDigits ∧
    (Client.signature m "").length = 64 :=
  ⟨rfl, signature_length m s, fun _ hc => signature_chars_mem m s hc,
    signature_length m ""⟩

/-- Witness for C4: the theorem applied at a concrete message and secret. -/
theorem signature_deterministic_hex_witness :
    Client.signature "symbol=BTCUSDT&timestamp=95" "secretkey" =
      hexEncode (hmacSha256 (strBytes "secretkey") (strBytes "symbol=BTCUSDT&timestamp=95")) ∧
    (Client.signature "symbol=BTCUSDT&timestamp=95" "secretkey").length = 64 ∧
    (Client.signature "symbol=BTCUSDT&timestamp=95" "secretkey").data ⊆ hexDigits ∧
    (Client.signature "symbol=BTCUSDT&timestamp=95" "").length = 64 :=
  signature_deterministic_hex "symbol=BTCUSDT&timestamp=95" "secretkey"

/-- C5: every signed endpoint method invoked on a client whose secret key
is absent returns `AuthorizationKeysMissing`, with the client unchanged and
no request value produced (so no timestamp adjustment, no signature, no
network I/O — the right-hand sides do not depend on the request); the
statement covers any `api_key`, hence both the only-API-key client and the
fully unauthenticated client. -/
theorem signed_endpoints_secret_missing (c : Client) (q : Query)
    (h : c.secret_key = none) :
    c.account_get q = (.error .AuthorizationKeysMissing, c) ∧
    c.open_orders_get q = (.error .AuthorizationKeysMissing, c) ∧
    c.open_orders_delete q = (.error .AuthorizationKeysMissing, c) ∧
    c.order_get q = (.error .AuthorizationKeysMissing, c) ∧
    c.order_post q = (.error .AuthorizationKeysMissing, c) ∧
    c.order_delete q = (.error .AuthorizationKeysMissing, c) ∧
    c.order_post_test q = (.error .AuthorizationKeysMissing, c) := by
  refine ⟨?_, ?_, ?_, ?_, ?_, ?_, ?_⟩ <;>
    simp [Client.account_get, Client.open_orders_get, Client.open_orders_delete,
      Client.order_get, Client.order_post, Client.order_delete,
      Client.order_post_test, h]

/-- Witness for C5: the theorem applied to a client holding only the API
key and to a fully unauthenticated client. -/
theorem signed_endpoints_secret_missing_witness :
    clientApiOnlyW.secret_key = none ∧
    clientApiOnlyW.account_get queryW = (.error .AuthorizationKeysMissing, clientApiOnlyW) ∧
    clientUnauthW.secret_key = none ∧
    clientUnauthW.order_post queryW = (.error .AuthorizationKeysMissing, clientUnauthW) :=
  ⟨rfl, (signed_endpoints_secret_missing clientApiOnlyW queryW rfl).1, rfl,
    (signed_endpoints_secret_missing clientUnauthW queryW rfl).2.2.2.2.1⟩

/-- C6: for every response body, the envelope decode shared by `execute`
and `execute_signed` returns the typed payload when the body parses as the
success arm; returns the API-error result carrying the exchange code and
message verbatim when it parses as the error arm (not a parse failure);
and returns a response-parse failure carrying the original raw body when
it parses as neither arm.  The three outcomes are produced by disjoint
branches and are never collapsed into one another. -/
theorem decode_envelope (T : Type) (parseOk : String → Option T)
    (parseErr : String → Option (Int × String)) (body : String) :
    (∀ t, parseOk body = some t → decodeResponse parseOk parseErr body = .ok t) ∧
    (parseOk body = none →
      ∀ code msg, parseErr body = some (code, msg) →
        decodeResponse parseOk parseErr body = .error (.ResponseError code msg)) ∧
    (parseOk body = none → parseErr body = none →
      decodeResponse parseOk parseErr body = .error (.ResponseParsing body)) := by
  refine ⟨?_, ?_, ?_⟩ <;> intros <;> simp [decodeResponse, *]

/-- Witness for C6: the theorem applied to concrete parsers at a
success-shaped, an error-shaped and an unparsable body. -/
theorem decode_envelope_witness :
    decodeResponse parseOkW parseErrW "7" = .ok 7 ∧
    decodeResponse parseOkW parseErrW "errbody" =
      .error (.ResponseError (-1021)
        "Timestamp for this request is outside of the recvWindow.") ∧
    decodeResponse parseOkW parseErrW "garbage" = .error (.ResponseParsing "garbage") :=
  ⟨(decode_envelope Nat parseOkW parseErrW "7").1 7 (by decide),
    (decode_envelope Nat parseOkW parseErrW "errbody").2.1 (by decide) (-1021)
      "Timestamp for this request is outside of the recvWindow." (by decide),
    (decode_envelope Nat parseOkW parseErrW "garbage").2.2 (by decide) (by decide)⟩

/-- C7: both constructors perform exactly one server-time calibration call
during construction (exactly the head of the reply stream is consumed, in
every case); when that call fails no client value is produced and the
remaining stream is untouched — the failure is fatal and not retried; when
it succeeds the client is produced with the calibrated offset stored. -/
theorem constructors_single_calibration_call (system_time : Int) (elapsed : Nat)
    (rest : List (Option Int)) (serverTime : Int) (api_key secret_key : String) :
    Client.new ⟨none :: rest⟩ system_time elapsed = (none, ⟨rest⟩) ∧
    Client.new ⟨some serverTime :: rest⟩ system_time elapsed =
      (some { inner := 0, api_key := none, secret_key := none,
              timestamp_offset := Client.timestamp_offset_calc system_time serverTime elapsed },
        ⟨rest⟩) ∧
    Client.new_with_auth api_key secret_key ⟨none :: rest⟩ system_time elapsed =
      (none, ⟨rest⟩) ∧
    Client.new_with_auth api_key secret_key ⟨some serverTime :: rest⟩ system_time elapsed =
      (some { inner := 0, api_key := some api_key, secret_key := some secret_key,
              timestamp_offset := Client.timestamp_offset_calc system_time serverTime elapsed },
        ⟨rest⟩) := by
  refine ⟨?_, ?_, ?_, ?_⟩ <;>
    simp [Client.new, Client.new_with_auth, Client.timestamp_offset_call, TimeTransport.call]

/-- C8: no endpoint method mutates the client: for every client state and
every request, each of the thirteen public endpoint methods returns the
client value with every field (transport handle, API key, secret key,
timestamp offset) unchanged. -/
theorem endpoint_calls_preserve_client (c : Client) (q : Query) (s : String) :
    (c.ping).2 = c ∧ (c.time).2 = c ∧ (c.exchange_info).2 = c ∧
    (c.klines s).2 = c ∧ (c.depth s).2 = c ∧ (c.depth_ticker).2 = c ∧
    (c.account_get q).2 = c ∧ (c.open_orders_get q).2 = c ∧
    (c.open_orders_delete q).2 = c ∧ (c.order_get q).2 = c ∧
    (c.order_post q).2 = c ∧ (c.order_delete q).2 = c ∧
    (c.order_post_test q).2 = c := by
  cases hsk : c.secret_key <;>
    simp [Client.ping, Client.time, Client.exchange_info, Client.klines,
      Client.depth, Client.depth_ticker, Client.account_get, Client.open_orders_get,
      Client.open_orders_delete, Client.order_get, Client.order_post,
      Client.order_delete, Client.order_post_test, hsk]

/-- C9: for every client with a secret key and every order request,
order_post and order_post_test build character-for-character identical
signed query strings `P` (same timestamp adjustment, same canonical
serialization, same signature over the same string with the same secret)
and hand them to the signed executor with the same HTTP method; the two
calls differ only in the path prefix, `/api/v3/order?` versus
`/api/v3/order/test?`. -/
theorem order_post_and_test_same_params (c : Client) (q : Query) (sk : String)
    (hsk : c.secret_key = some sk) :
    let S := Query.toQueryString { q with timestamp := q.timestamp - c.timestamp_offset }
    let P := S ++ ("&signature=" ++ Client.signature S sk)
    (c.order_post q).1 = c.execute_signed .POST ("/api/v3/order?" ++ P) ∧
    (c.order_post_test q).1 = c.execute_signed .POST ("/api/v3/order/test?" ++ P) := by
  intro S P
  constructor <;> simp [Client.order_post, Client.order_post_test, hsk]

/-- Witness for C9: the theorem applied to a concrete client and request. -/
theorem order_post_and_test_same_params_witness :
    clientAuthW.secret_key = some "secretkey" ∧
    (let S :=
      Query.toQueryString { queryW with timestamp := queryW.timestamp - clientAuthW.timestamp_offset }
     let P := S ++ ("&signature=" ++ Client.signature S "secretkey")
     (clientAuthW.order_post queryW).1 =
       clientAuthW.execute_signed .POST ("/api/v3/order?" ++ P) ∧
     (clientAuthW.order_post_test queryW).1 =
       clientAuthW.execute_signed .POST ("/api/v3/order/test?" ++ P)) :=
  ⟨rfl, order_post_and_test_same_params clientAuthW queryW "secretkey" rfl⟩

/-- C10: for every signed endpoint method invoked on a client whose secret
key is present but whose API key is absent, the call returns the same
`AuthorizationKeysMissing` error, produced by the API-key check of the
signed executor — before the absolute URL is built and before any network
I/O (in `execute_signed` the key check precedes URL construction, and no
request value is produced); the first conjunct shows the signed executor
itself fails this way on any method and path.  The endpoint methods do
pass their secret-key check first (the timestamp adjustment and signature
are computed and then discarded, unobservable in the result). -/
theorem signed_endpoints_api_key_missing (c : Client) (q : Query) (sk u : String)
    (m : Method) (hsk : c.secret_key = some sk) (hak : c.api_key = none) :
    c.execute_signed m u = .error .AuthorizationKeysMissing ∧
    c.account_get q = (.error .AuthorizationKeysMissing, c) ∧
    c.open_orders_get q = (.error .AuthorizationKeysMissing, c) ∧
    c.open_orders_delete q = (.error .AuthorizationKeysMissing, c) ∧
    c.order_get q = (.error .AuthorizationKeysMissing, c) ∧
    c.order_post q = (.error .AuthorizationKeysMissing, c) ∧
    c.order_delete q = (.error .AuthorizationKeysMissing, c) ∧
    c.order_post_test q = (.error .AuthorizationKeysMissing, c) := by
  refine ⟨?_, ?_, ?_, ?_, ?_, ?_, ?_, ?_⟩ <;>
    simp [Client.execute_signed, Client.account_get, Client.open_orders_get,
      Client.open_orders_delete, Client.order_get, Client.order_post,
      Client.order_delete, Client.order_post_test, hsk, hak]

/-- Witness for C10: the theorem applied to a client holding only the
secret key. -/
theorem signed_endpoints_api_key_missing_witness :
    clientSecretOnlyW.secret_key = some "secretkey" ∧
    clientSecretOnlyW.api_key = none ∧
    clientSecretOnlyW.execute_signed .GET "/api/v3/account?x=y" =
      .error .AuthorizationKeysMissing ∧
    clientSecretOnlyW.account_get queryW =
      (.error .AuthorizationKeysMissing, clientSecretOnlyW) :=
  ⟨rfl, rfl,
    (signed_endpoints_api_key_missing clientSecretOnlyW queryW "secretkey"
      "/api/v3/account?x=y" .GET rfl rfl).1,
    (signed_endpoints_api_key_missing clientSecretOnlyW queryW "secretkey"
      "/api/v3/account?x=y" .GET rfl rfl).2.1⟩
